import Mathlib

/-!
Verification of the mailboxxy actor library (src/src/lib.rs).

The library is a thin wrapper over `async_std::channel` (a multi-producer
FIFO channel, bounded or unbounded, that is closed once every sender or
every receiver is dropped).  We embed a channel as an explicit state:
its capacity policy (`none` = unbounded, `some n` = bounded with capacity
`n`), its FIFO queue of pending values, and whether it has been closed
(all handles on the opposite side dropped, or `close()` called).

The collaborator's operations `send_blocking`, `recv` and `close` are
modelled first; the library's operations (`MailBox::post`, `MailBox::ask`,
`MailboxContext::dequeue`, `ReplyChannel::reply`, `start_mailbox_direct`)
are translated on top of them.  Every `.unwrap()` in the source is kept
visible: the outcome types below distinguish the successful result, a
blocking wait, and the process-fatal branch where `.unwrap()` hits an
`Err` (rendered as a dedicated constructor).
-/

/-- State of one `async_std::channel` instance: capacity policy
(`none` = unbounded), the FIFO queue of not-yet-received values, and the
closed flag (set when the opposite side is fully dropped or `close()` is
called). -/
structure ChannelState (α : Type) where
  capacity : Option Nat
  queue : List α
  closed : Bool
deriving Repr, DecidableEq

/-- A bounded channel is full when its queue has reached its capacity;
an unbounded channel is never full. -/
def ChannelState.isFull (c : ChannelState α) : Bool :=
  match c.capacity with
  | none => false
  | some n => decide (n ≤ c.queue.length)

/-- Marks the channel closed (`Sender::close`, or dropping the last
handle of one side). Queued values remain deliverable. -/
def ChannelState.close (c : ChannelState α) : ChannelState α :=
  ChannelState.mk c.capacity c.queue true

/-- Outcome of `Sender::send_blocking`: the value was enqueued, or the
caller blocks because a bounded queue is full, or the call returns
`Err(...)` because the channel is closed. -/
inductive SendResult (α : Type)
| sent (c : ChannelState α)
| wouldBlock
| errClosed
deriving Repr, DecidableEq

/-- `async_std` semantics of `send_blocking`: error if the channel is
closed, block if a bounded queue is full, otherwise append the value to
the back of the FIFO queue. -/
def sendBlocking (c : ChannelState α) (v : α) : SendResult α :=
  if c.closed then SendResult.errClosed
  else if c.isFull then SendResult.wouldBlock
  else SendResult.sent (ChannelState.mk c.capacity (c.queue ++ [v]) c.closed)

/-- Outcome of `Receiver::recv`: the front value was received, or the
caller suspends on an empty open channel, or the call returns
`Err(RecvError)` on an empty closed channel (end-of-stream). -/
inductive RecvResult (α : Type)
| received (v : α) (c : ChannelState α)
| suspended
| errClosed
deriving Repr, DecidableEq

/-- `async_std` semantics of `recv`: pop the front of the queue when one
is available (even on a closed channel), suspend when the queue is empty
and the channel is open, signal end-of-stream when it is empty and
closed. -/
def recv (c : ChannelState α) : RecvResult α :=
  match c.queue with
  | v :: rest => RecvResult.received v (ChannelState.mk c.capacity rest c.closed)
  | [] => if c.closed then RecvResult.errClosed else RecvResult.suspended

/-- Outcome of `MailBox::post`, whose body is
`self.sender.send_blocking(msg).unwrap()`: success carries the updated
channel; the bounded-full case blocks the caller; the `Err` case hits
`.unwrap()` and aborts the process. -/
inductive PostResult (α : Type)
| ok (c : ChannelState α)
| blockedFull
| unwrapAborted
deriving Repr, DecidableEq

/-- `MailBox::post`: `send_blocking` on the mailbox sender, with `Err`
unwrapped into a process abort. The `MailBox` wrapper stores only the
sending half, so the shared channel state is passed explicitly. -/
def MailBox.post (c : ChannelState α) (msg : α) : PostResult α :=
  match sendBlocking c msg with
  | SendResult.sent c' => PostResult.ok c'
  | SendResult.wouldBlock => PostResult.blockedFull
  | SendResult.errClosed => PostResult.unwrapAborted

/-- Outcome of `MailboxContext::dequeue`, whose body is
`self.receiver.recv().await.unwrap()`: a message, a cooperative
suspension, or the end-of-stream `Err` hitting `.unwrap()`. -/
inductive DequeueResult (α : Type)
| msg (v : α) (c : ChannelState α)
| suspended
| unwrapAborted
deriving Repr, DecidableEq

/-- `MailboxContext::dequeue`: `recv` on the mailbox receiver, with the
end-of-stream `Err` unwrapped into a process abort. -/
def MailboxContext.dequeue (c : ChannelState α) : DequeueResult α :=
  match recv c with
  | RecvResult.received v c' => DequeueResult.msg v c'
  | RecvResult.suspended => DequeueResult.suspended
  | RecvResult.errClosed => DequeueResult.unwrapAborted

/-- Outcome of `ReplyChannel::reply`, whose body is
`self.s.send_blocking(value).unwrap(); self.s.close();`. -/
inductive ReplyOutcome (α : Type)
| ok (c : ChannelState α)
| blockedFull
| unwrapAborted
deriving Repr, DecidableEq

/-- `ReplyChannel::reply`: send the value on the wrapped sender (the
`Err` branch hits `.unwrap()` and aborts), then close the channel. -/
def ReplyChannel.reply (c : ChannelState α) (v : α) : ReplyOutcome α :=
  match sendBlocking c v with
  | SendResult.sent c' => ReplyOutcome.ok (ChannelState.close c')
  | SendResult.wouldBlock => ReplyOutcome.blockedFull
  | SendResult.errClosed => ReplyOutcome.unwrapAborted

/-- The fresh capacity-1 channel created by
`async_std::channel::bounded(1)` at the start of `MailBox::ask`. -/
def replyChannelNew (ρ : Type) : ChannelState ρ :=
  ChannelState.mk (some 1) [] false

/-- The first half of `MailBox::ask` up to its suspension point: the
fresh reply channel `(s, r) = bounded(1)`, the message `cb(rc)` built
from it, and the outcome of `self.sender.send_blocking(msg)`. -/
structure AskPost (μ ρ : Type) where
  rc : ChannelState ρ
  msg : μ
  posted : SendResult μ

/-- `MailBox::ask`, posting phase: create the capacity-1 reply channel,
apply the caller's builder to it to obtain the concrete message, and
send that message on the mailbox queue (`.unwrap()`-ed in the source). -/
def MailBox.ask_post (c : ChannelState μ) (cb : ChannelState ρ → μ) : AskPost μ ρ :=
  let s := replyChannelNew ρ
  let msg := cb s
  AskPost.mk s msg (sendBlocking c msg)

/-- Outcome of the resumption of `MailBox::ask`, whose tail is
`return r.recv().await.unwrap();`: the replied value, a continued
suspension, or the closed-unanswered `Err` hitting `.unwrap()`. -/
inductive AskRecvOutcome (ρ : Type)
| value (v : ρ)
| suspended
| unwrapAborted
deriving Repr, DecidableEq

/-- `MailBox::ask`, receiving phase: `recv` on the reply channel's
receiving half, with `Err` (reply channel dropped unanswered) unwrapped
into a process abort. -/
def MailBox.ask_recv (rc : ChannelState ρ) : AskRecvOutcome ρ :=
  match recv rc with
  | RecvResult.received v _ => AskRecvOutcome.value v
  | RecvResult.suspended => AskRecvOutcome.suspended
  | RecvResult.errClosed => AskRecvOutcome.unwrapAborted

/-- The mailbox bounds enum from the source; the payload of `Bounded` is
a Rust `usize`, embedded as `Nat`. -/
inductive MailboxBounds
| Unbounded
| Bounded (capacity : Nat)
deriving Repr, DecidableEq

/-- Errors of the channel constructors: `async_std::channel::bounded`
panics when asked for capacity zero. -/
inductive ChannelError
| zeroCapacity
deriving Repr, DecidableEq

/-- The channel-pair creation performed by `start_mailbox_direct`:
`unbounded()` for `Unbounded`, `bounded(n)` for `Bounded(n)` (which
fails for `n = 0`, a panic of the collaborator). The single state stands
for the pair: the sender and receiver halves share it. -/
def channelOfBounds (μ : Type) (b : MailboxBounds) : Except ChannelError (ChannelState μ) :=
  match b with
  | MailboxBounds.Unbounded => Except.ok (ChannelState.mk none [] false)
  | MailboxBounds.Bounded n =>
    if n = 0 then Except.error ChannelError.zeroCapacity
    else Except.ok (ChannelState.mk (some n) [] false)

/-- The receiving-half wrapper `MailboxContext { receiver }`. -/
structure MailboxContext (μ : Type) where
  receiver : ChannelState μ

/-- The caller-side wrapper `MailBox { sender, handle }`. -/
structure MailBox (μ η : Type) where
  sender : ChannelState μ
  handle : η

/-- `start_mailbox_direct(bounds, f)`: create the channel pair per the
bounds, wrap the receiving half in a `MailboxContext`, apply the
constructor `f` to it to obtain the lifecycle handle, and assemble the
`MailBox` from the sending half and that handle. -/
def start_mailbox_direct (b : MailboxBounds) (f : MailboxContext μ → η) :
    Except ChannelError (MailBox μ η) :=
  match channelOfBounds μ b with
  | Except.error e => Except.error e
  | Except.ok ch => Except.ok (MailBox.mk ch (f (MailboxContext.mk ch)))

/-- The fresh channel of a mailbox started with `Unbounded` bounds. -/
def freshUnbounded (μ : Type) : ChannelState μ :=
  ChannelState.mk none [] false

/-- Posting a list of messages one after the other from the single
poster; `none` if any individual post fails to complete. -/
def postList (c : ChannelState μ) : List μ → Option (ChannelState μ)
| [] => some c
| m :: ms =>
  match MailBox.post c m with
  | PostResult.ok c' => postList c' ms
  | _ => none

/-- A generic actor's incoming message: either a one-way message `p`
handled by folding the actor's step function, or an ask message carrying
the reply channel that `MailBox::ask` created. -/
inductive QMsg (π ρ : Type)
| plain (p : π)
| ask (rc : ChannelState ρ)

/-- A generic actor loop in the style of the example `mailbox_fn`: it
dequeues messages in order, folds its state `s` with the handler `h` on
one-way messages, and on an ask message replies the query `q s` on the
carried reply channel, returning that channel's resulting state. `none`
when the fuel runs out or a channel operation fails to deliver. -/
def actorLoop (h : σ → π → σ) (q : σ → ρ) : Nat → σ → ChannelState (QMsg π ρ) → Option (ChannelState ρ)
| 0, _, _ => none
| Nat.succ fuel, s, c =>
  match MailboxContext.dequeue c with
  | DequeueResult.msg (QMsg.plain p) c' => actorLoop h q fuel (h s p) c'
  | DequeueResult.msg (QMsg.ask rc) _ =>
    match ReplyChannel.reply rc (q s) with
    | ReplyOutcome.ok rc' => some rc'
    | _ => none
  | _ => none

/-- The example counter actor's message type (`TestMsg` in the source):
two one-way messages and one ask-style message carrying the reply
channel for an `i32` answer. -/
inductive TestMsg
| Increment
| Decrement
| GetValue (rc : ChannelState Int)

/-- The example counter actor (`mailbox_fn` in the source), run until it
answers one `GetValue` (the asker is suspended until then, so nothing
else reaches the queue meanwhile): dequeue in a loop, increment or
decrement the local `count`, and on `GetValue(rc)` reply the current
count on `rc`. Returns the count, the remaining mailbox state and the
reply channel's state after the reply. -/
def mailbox_fn : Nat → Int → ChannelState TestMsg → Option (Int × ChannelState TestMsg × ChannelState Int)
| 0, _, _ => none
| Nat.succ fuel, count, c =>
  match MailboxContext.dequeue c with
  | DequeueResult.msg TestMsg.Increment c' => mailbox_fn fuel (count + 1) c'
  | DequeueResult.msg TestMsg.Decrement c' => mailbox_fn fuel (count - 1) c'
  | DequeueResult.msg (TestMsg.GetValue rc) c' =>
    match ReplyChannel.reply rc count with
    | ReplyOutcome.ok rc' => some (count, c', rc')
    | _ => none
  | _ => none

/-- The test scenario `test_mb` of the source on a fresh unbounded
mailbox: post Increment three times, ask `GetValue`, then post
Decrement, ask `GetValue` again; the result collects the two replied
values. Each ask suspends its caller until the actor replies, so the
actor's processing of each batch is sequenced before the next post. -/
def test_mb : Option (Int × Int) :=
  match postList (freshUnbounded TestMsg) [TestMsg.Increment, TestMsg.Increment, TestMsg.Increment] with
  | none => none
  | some c1 =>
    match (MailBox.ask_post c1 TestMsg.GetValue).posted with
    | SendResult.sent c2 =>
      match mailbox_fn 8 0 c2 with
      | some (count1, c3, rc1) =>
        match MailBox.ask_recv rc1 with
        | AskRecvOutcome.value v1 =>
          match MailBox.post c3 TestMsg.Decrement with
          | PostResult.ok c4 =>
            match (MailBox.ask_post c4 TestMsg.GetValue).posted with
            | SendResult.sent c5 =>
              match mailbox_fn 8 count1 c5 with
              | some (_, _, rc2) =>
                match MailBox.ask_recv rc2 with
                | AskRecvOutcome.value v2 => some (v1, v2)
                | _ => none
              | _ => none
            | _ => none
          | _ => none
        | _ => none
      | _ => none
    | _ => none

/-- Claim C2: for the example counter actor on a fresh mailbox, posting
Increment three times and asking GetValue yields 3; then posting
Decrement once and asking GetValue again yields 2. -/
theorem test_mb_returns_three_then_two : test_mb = some (3, 2) := by
  decide

/-- Claim C3 (evaluation at the failing inputs): each lifecycle failure
hits an `.unwrap()` and aborts the process instead of being returned as
a typed recoverable result: `reply` after the asker abandoned the wait
(its capacity-1 channel closed), `post` on an abandoned mailbox (context
dropped), `dequeue` on an abandoned drained mailbox, and the `ask`
resumption after the reply channel was dropped unanswered. -/
theorem lifecycle_failures_abort :
    ReplyChannel.reply (ChannelState.mk (some 1) [] true) (0 : Int) = ReplyOutcome.unwrapAborted
    ∧ MailBox.post (ChannelState.mk none [] true) (0 : Int) = PostResult.unwrapAborted
    ∧ MailboxContext.dequeue (ChannelState.mk none ([] : List Int) true) = DequeueResult.unwrapAborted
    ∧ MailBox.ask_recv (ChannelState.mk (some 1) ([] : List Int) true) = AskRecvOutcome.unwrapAborted := by
  decide

/-- Claim C4 (evaluation at the failing input): once all senders are
dropped (channel closed) and the queue is drained, the next `dequeue`
does not suspend and does not return an end-of-stream result: its
`recv().await.unwrap()` hits the end-of-stream `Err` and aborts the
process. -/
theorem dequeue_after_abandon_aborts :
    MailboxContext.dequeue (ChannelState.mk none ([] : List Nat) true) = DequeueResult.unwrapAborted := by
  decide

/-- Claim C5 (evaluation at the failing input): an `ask` whose reply
channel was dropped unanswered (closed with nothing delivered) does not
resolve with a failure indication returned to the caller, nor with any
value, fabricated or otherwise: its `recv().await.unwrap()` hits the
closed-channel `Err` and aborts the process. -/
theorem ask_dropped_unanswered_aborts :
    MailBox.ask_recv (ChannelState.mk (some 1) ([] : List Nat) true) = AskRecvOutcome.unwrapAborted := by
  decide

/-- Inversion of a successful `send_blocking`: it only succeeds on an
open channel, and then appends the value to the back of the queue. -/
theorem sendBlocking_sent (c c0 : ChannelState α) (v : α)
    (h : sendBlocking c v = SendResult.sent c0) :
    c.closed = false ∧ c0 = ChannelState.mk c.capacity (c.queue ++ [v]) c.closed := by
  unfold sendBlocking at h
  split at h
  · cases h
  · next hc =>
    split at h
    · cases h
    · cases h
      have hcl : c.closed = false := by
        cases hcc : c.closed
        · rfl
        · exact absurd hcc hc
      exact ⟨hcl, rfl⟩

/-- Posting any list of messages on an open unbounded channel succeeds
and appends them, in order, to the back of the queue. -/
theorem postList_unbounded_open (q ms : List μ) :
    postList (ChannelState.mk none q false) ms
      = some (ChannelState.mk none (q ++ ms) false) := by
  induction ms generalizing q with
  | nil => simp [postList]
  | cons m ms ih =>
    have hpost : MailBox.post (ChannelState.mk none q false) m
        = PostResult.ok (ChannelState.mk none (q ++ [m]) false) := by
      unfold MailBox.post sendBlocking
      simp [ChannelState.isFull]
    simp only [postList, hpost]
    rw [ih (q ++ [m])]
    simp

/-- The generic actor loop dequeues the leading one-way messages of its
queue in FIFO order, folding its state with the handler, before it ever
looks at the rest of the queue. -/
theorem actorLoop_folds_plains (h : σ → π → σ) (q : σ → ρ) (posts : List π) (s : σ)
    (rest : List (QMsg π ρ)) (fuel : Nat) :
    actorLoop h q (posts.length + fuel) s
        (ChannelState.mk none (List.map QMsg.plain posts ++ rest) false)
      = actorLoop h q fuel (List.foldl h s posts) (ChannelState.mk none rest false) := by
  induction posts generalizing s with
  | nil => simp
  | cons p ps ih =>
    have hlen : (p :: ps).length + fuel = (ps.length + fuel) + 1 := by
      simp [List.length_cons]
      omega
    rw [hlen]
    simp only [List.map_cons, List.cons_append, List.foldl_cons, actorLoop,
      MailboxContext.dequeue, recv]
    exact ih (h s p)

/-- Claim C1: from a single poster, any sequence of one-way posts
followed by an ask is processed by the actor in exactly that order: the
posts land in the queue in post order, the ask's message lands behind
them, the actor loop handles every earlier post (and nothing else)
before answering the ask, and the value the ask receives is the query of
the state folded over exactly those posts. -/
theorem ask_after_posts_reflects_prior_posts
    (h : σ → π → σ) (q : σ → ρ) (s0 : σ) (posts : List π) :
    ∃ c1 c2 rc,
      postList (freshUnbounded (QMsg π ρ)) (List.map QMsg.plain posts) = some c1
      ∧ (MailBox.ask_post c1 QMsg.ask).posted = SendResult.sent c2
      ∧ actorLoop h q (posts.length + 1) s0 c2 = some rc
      ∧ MailBox.ask_recv rc = AskRecvOutcome.value (q (List.foldl h s0 posts)) := by
  refine ⟨ChannelState.mk none (List.map QMsg.plain posts) false,
    ChannelState.mk none (List.map QMsg.plain posts ++ [QMsg.ask (replyChannelNew ρ)]) false,
    ChannelState.mk (some 1) [q (List.foldl h s0 posts)] true, ?_, ?_, ?_, ?_⟩
  · simpa [freshUnbounded] using
      postList_unbounded_open ([] : List (QMsg π ρ)) (List.map QMsg.plain posts)
  · rfl
  · have hfold := actorLoop_folds_plains h q posts s0 [QMsg.ask (replyChannelNew ρ)] 1
    rw [hfold]
    rfl
  · rfl

/-- Claim C6: whenever `reply` succeeds it closes the channel and
appends exactly the one replied value, so at most one value is ever
delivered through a given reply channel, and a second `reply` on it hits
the closed-channel branch instead of delivering anything. -/
theorem reply_consumes_channel (c c' : ChannelState ρ) (v w : ρ)
    (h : ReplyChannel.reply c v = ReplyOutcome.ok c') :
    c'.closed = true ∧ c'.queue = c.queue ++ [v]
    ∧ ReplyChannel.reply c' w = ReplyOutcome.unwrapAborted := by
  unfold ReplyChannel.reply at h
  rcases hsb : sendBlocking c v with c0 | _ | _ <;> rw [hsb] at h
  · cases h
    obtain ⟨hcl, hc0⟩ := sendBlocking_sent c c0 v hsb
    subst hc0
    refine ⟨rfl, rfl, ?_⟩
    unfold ReplyChannel.reply sendBlocking
    simp [ChannelState.close]
  · cases h
  · cases h

/-- Witness for C6: replying 5 on the fresh reply channel of an ask
closes it holding exactly [5], and a second reply of 7 aborts. -/
theorem reply_consumes_channel_witness :
    (ChannelState.mk (some 1) [(5 : Int)] true).closed = true
    ∧ (ChannelState.mk (some 1) [(5 : Int)] true).queue = (replyChannelNew Int).queue ++ [(5 : Int)]
    ∧ ReplyChannel.reply (ChannelState.mk (some 1) [(5 : Int)] true) (7 : Int)
        = ReplyOutcome.unwrapAborted :=
  reply_consumes_channel (replyChannelNew Int) (ChannelState.mk (some 1) [(5 : Int)] true)
    5 7 (by decide)

/-- Claim C7: `ask(cb)` performs exactly these steps in order: it
creates a fresh one-shot reply channel of capacity 1 (empty, open),
applies the builder to that channel to build the concrete message, posts
that message at the back of the mailbox queue, then suspends on the
reply channel while it is empty; once the actor replies a value `v`, the
reply channel holds exactly `v` and the resumed `ask` returns it. -/
theorem ask_performs_steps (c : ChannelState μ) (cb : ChannelState ρ → μ) (v : ρ)
    (hopen : c.closed = false) (hfull : c.isFull = false) :
    (MailBox.ask_post c cb).rc = ChannelState.mk (some 1) [] false
    ∧ (MailBox.ask_post c cb).msg = cb (ChannelState.mk (some 1) [] false)
    ∧ (MailBox.ask_post c cb).posted
        = SendResult.sent (ChannelState.mk c.capacity
            (c.queue ++ [cb (ChannelState.mk (some 1) [] false)]) c.closed)
    ∧ MailBox.ask_recv (MailBox.ask_post c cb).rc = AskRecvOutcome.suspended
    ∧ ReplyChannel.reply (MailBox.ask_post c cb).rc v
        = ReplyOutcome.ok (ChannelState.mk (some 1) [v] true)
    ∧ MailBox.ask_recv (ChannelState.mk (some 1) [v] true) = AskRecvOutcome.value v := by
  refine ⟨rfl, rfl, ?_, rfl, rfl, rfl⟩
  unfold MailBox.ask_post sendBlocking
  simp [hopen, hfull, replyChannelNew]

/-- Witness for C7 on a fresh unbounded mailbox of Nat messages, with
the builder returning the reply channel's queue length and reply 9. -/
theorem ask_performs_steps_witness :
    (MailBox.ask_post (freshUnbounded Nat) (fun rc : ChannelState Nat => rc.queue.length)).rc
        = ChannelState.mk (some 1) [] false
    ∧ (MailBox.ask_post (freshUnbounded Nat) (fun rc : ChannelState Nat => rc.queue.length)).msg
        = (ChannelState.mk (some 1) ([] : List Nat) false).queue.length
    ∧ (MailBox.ask_post (freshUnbounded Nat) (fun rc : ChannelState Nat => rc.queue.length)).posted
        = SendResult.sent (ChannelState.mk (freshUnbounded Nat).capacity
            ((freshUnbounded Nat).queue
              ++ [(ChannelState.mk (some 1) ([] : List Nat) false).queue.length])
            (freshUnbounded Nat).closed)
    ∧ MailBox.ask_recv (MailBox.ask_post (freshUnbounded Nat) (fun rc : ChannelState Nat => rc.queue.length)).rc
        = AskRecvOutcome.suspended
    ∧ ReplyChannel.reply (MailBox.ask_post (freshUnbounded Nat) (fun rc : ChannelState Nat => rc.queue.length)).rc 9
        = ReplyOutcome.ok (ChannelState.mk (some 1) [9] true)
    ∧ MailBox.ask_recv (ChannelState.mk (some 1) [(9 : Nat)] true) = AskRecvOutcome.value 9 :=
  ask_performs_steps (freshUnbounded Nat) (fun rc : ChannelState Nat => rc.queue.length) 9 rfl rfl

/-- The queue capacity named by a bounds value. -/
def MailboxBounds.capacityOf : MailboxBounds → Option Nat
| MailboxBounds.Unbounded => none
| MailboxBounds.Bounded n => some n

/-- The positivity precondition on a bounds value: `Unbounded` always,
`Bounded n` only for positive `n`. -/
def boundsPositive : MailboxBounds → Prop
| MailboxBounds.Unbounded => True
| MailboxBounds.Bounded n => 0 < n

/-- Claim C8: `start_mailbox_direct(bounds, f)` creates one fresh channel
pair per the given bounds (unbounded queue for `Unbounded`, capacity-n
queue for `Bounded n`), starting empty and open, invokes the constructor
once on a context wrapping the receiving half, and returns a `MailBox`
holding the sending half of the same channel together with the handle
the constructor produced. -/
theorem start_mailbox_direct_assembles (b : MailboxBounds) (f : MailboxContext μ → η)
    (hb : boundsPositive b) :
    ∃ ch : ChannelState μ,
      channelOfBounds μ b = Except.ok ch
      ∧ ch.capacity = MailboxBounds.capacityOf b ∧ ch.queue = [] ∧ ch.closed = false
      ∧ start_mailbox_direct b f = Except.ok (MailBox.mk ch (f (MailboxContext.mk ch))) := by
  cases b with
  | Unbounded =>
    exact ⟨ChannelState.mk none [] false, rfl, rfl, rfl, rfl, rfl⟩
  | Bounded n =>
    have hb' : 0 < n := hb
    have hn : ¬ n = 0 := Nat.pos_iff_ne_zero.mp hb'
    refine ⟨ChannelState.mk (some n) [] false, ?_, rfl, rfl, rfl, ?_⟩
    · unfold channelOfBounds
      simp [hn]
    · unfold start_mailbox_direct channelOfBounds
      simp [hn]

/-- Witness for C8 at `Bounded 2` with a constructor whose handle is the
length of the context's queue. -/
theorem start_mailbox_direct_assembles_witness :
    ∃ ch : ChannelState Nat,
      channelOfBounds Nat (MailboxBounds.Bounded 2) = Except.ok ch
      ∧ ch.capacity = MailboxBounds.capacityOf (MailboxBounds.Bounded 2)
      ∧ ch.queue = [] ∧ ch.closed = false
      ∧ start_mailbox_direct (MailboxBounds.Bounded 2)
            (fun ctx => ctx.receiver.queue.length)
          = Except.ok (MailBox.mk ch (ch.queue.length)) :=
  start_mailbox_direct_assembles (MailboxBounds.Bounded 2)
    (fun ctx => ctx.receiver.queue.length) (Nat.zero_lt_succ 1)

/-- Counterexample for C9: the bounds type does not admit only positive
capacities — `Bounded 0` is a value of the type (it is neither
`Unbounded` nor `Bounded n` for any positive `n`), and at that value the
failing branch of channel creation is reachable. -/
theorem bounds_admit_zero_capacity :
    ¬ (MailboxBounds.Bounded 0 = MailboxBounds.Unbounded
        ∨ ∃ n : Nat, 0 < n ∧ MailboxBounds.Bounded 0 = MailboxBounds.Bounded n)
    ∧ channelOfBounds Nat (MailboxBounds.Bounded 0)
        = Except.error ChannelError.zeroCapacity := by
  constructor
  · rintro (h | ⟨n, hn, h⟩)
    · cases h
    · cases h
      exact Nat.lt_irrefl 0 hn
  · rfl

/-- Claim C9 as amended: the bounds type admits `Unbounded` and
`Bounded n` for every natural `n`, zero included; under the precondition
`0 < n`, channel creation with `Bounded n` succeeds without reaching a
failing branch and fixes the queue capacity to exactly `n`, and neither
a send nor a receive ever changes a channel's capacity afterwards. -/
theorem bounded_positive_creation (μ : Type) (n : Nat) (hn : 0 < n) :
    channelOfBounds μ (MailboxBounds.Bounded n)
        = Except.ok (ChannelState.mk (some n) [] false)
    ∧ (∀ (c c' : ChannelState μ) (v : μ),
        sendBlocking c v = SendResult.sent c' → c'.capacity = c.capacity)
    ∧ (∀ (c c' : ChannelState μ) (v : μ),
        recv c = RecvResult.received v c' → c'.capacity = c.capacity) := by
  refine ⟨?_, ?_, ?_⟩
  · unfold channelOfBounds
    simp [Nat.pos_iff_ne_zero.mp hn]
  · intro c c' v hs
    obtain ⟨-, hc⟩ := sendBlocking_sent c c' v hs
    rw [hc]
  · intro c c' v hr
    rcases hq : c.queue with _ | ⟨x, rest⟩ <;> simp only [recv, hq] at hr
    · split at hr <;> simp at hr
    · cases hr
      rfl

/-- Witness for the amended C9 at capacity 1. -/
theorem bounded_positive_creation_witness :
    channelOfBounds Nat (MailboxBounds.Bounded 1)
        = Except.ok (ChannelState.mk (some 1) [] false)
    ∧ (∀ (c c' : ChannelState Nat) (v : Nat),
        sendBlocking c v = SendResult.sent c' → c'.capacity = c.capacity)
    ∧ (∀ (c c' : ChannelState Nat) (v : Nat),
        recv c = RecvResult.received v c' → c'.capacity = c.capacity) :=
  bounded_positive_creation Nat 1 (by decide)

/-- Claim C10: on an open unbounded channel, `post` always succeeds: the
message is appended to the back of the queue, and neither the blocking
branch nor the `.unwrap()` failure branch is taken. -/
theorem post_unbounded_always_ok (c : ChannelState μ) (v : μ)
    (hcap : c.capacity = none) (hopen : c.closed = false) :
    MailBox.post c v = PostResult.ok (ChannelState.mk none (c.queue ++ [v]) false) := by
  unfold MailBox.post sendBlocking
  simp [hopen, ChannelState.isFull, hcap]

/-- Witness for C10: posting 42 on a fresh unbounded mailbox. -/
theorem post_unbounded_always_ok_witness :
    MailBox.post (freshUnbounded Nat) 42
      = PostResult.ok (ChannelState.mk none ((freshUnbounded Nat).queue ++ [42]) false) :=
  post_unbounded_always_ok (freshUnbounded Nat) 42 rfl rfl
